import Mathlib

/-!
Verification of `scripts/cloudformation_converter.py`.

The converter is a pure JSON-to-JSON transformation; we embed JSON values as
an inductive type (numbers are modelled as integers — the program never
computes with them, it only copies them), Python `dict`s as association
lists in insertion order, and Python exceptions (`KeyError` on `sg['GroupId']`,
`AttributeError`/`TypeError` on ill-typed values) as `Except String`.
The rendering Python's `str()` applies to a composite value inside an
f-string is abstracted by `Json.pyStr`; no property below depends on it.
-/

inductive Json where
  | null : Json
  | bool : Bool → Json
  | num : Int → Json
  | str : String → Json
  | arr : List Json → Json
  | obj : List (String × Json) → Json

/-- Lookup in an association list representing a Python dict (keys unique). -/
def alistLookup : List (String × Json) → String → Option Json
  | [], _ => none
  | (k, v) :: rest, key => if k = key then some v else alistLookup rest key

/-- Membership/lookup on a JSON value: `d[k]`-style lookup that yields `none`
when the value is not an object or lacks the key (models `'k' in d` / `d.get`). -/
def Json.lookup : Json → String → Option Json
  | .obj kvs, k => alistLookup kvs k
  | _, _ => none

/-- Python `d.get(k, default)`: succeeds on dicts, raises `AttributeError`
on any other value. -/
def Json.pyGet : Json → String → Json → Except String Json
  | .obj kvs, k, d => .ok ((alistLookup kvs k).getD d)
  | _, _, _ => .error "AttributeError: object has no attribute get"

/-- Python `d[k]` subscript: raises `KeyError` when the key is absent and
`TypeError` when the value is not a dict. -/
def Json.pyIndex : Json → String → Except String Json
  | .obj kvs, k =>
    match alistLookup kvs k with
    | some v => .ok v
    | none => .error "KeyError"
  | _, _ => .error "TypeError: not subscriptable"

/-- A string operation such as `.replace` demands an actual string
(`AttributeError` otherwise). -/
def Json.asStr : Json → Except String String
  | .str s => .ok s
  | _ => .error "AttributeError: not a string"

/-- Iterating a JSON value with `for` demands a list (`TypeError` otherwise). -/
def Json.asArr : Json → Except String (List Json)
  | .arr xs => .ok xs
  | _ => .error "TypeError: not iterable"

/-- Python `x == "s"` for a JSON value `x`: true exactly when `x` is that string. -/
def Json.isStrEq : Json → String → Bool
  | .str t, s => t = s
  | _, _ => false

/-- Python `str(x)` as used inside f-strings. Strings render as themselves
(the only case the program's behavior visibly depends on); the rendering of
composite values is abstracted. -/
def Json.pyStr : Json → String
  | .str s => s
  | .num n => toString n
  | .bool true => "True"
  | .bool false => "False"
  | .null => "None"
  | .arr _ => "<list>"
  | .obj _ => "<dict>"

/-- Python `s.replace('-', '')`: drop every hyphen character. -/
def stripHyphens (s : String) : String :=
  ⟨s.data.filter (fun c => c ≠ '-')⟩

/-- Python `resources[name] = v`: overwrite the entry if the key is present,
append it otherwise (dict insertion-order semantics). -/
def insertKV (kvs : List (String × Json)) (k : String) (v : Json) : List (String × Json) :=
  if (alistLookup kvs k).isSome then
    kvs.map (fun kv => if kv.1 = k then (k, v) else kv)
  else kvs ++ [(k, v)]

/-- The resource descriptor built for one VPC record
(lines 33–46 of `cloudformation_converter.py`). -/
def mkVpcEntry (cidr : Json) (vpcId : String) : Json :=
  Json.obj
    [("Type", Json.str "AWS::EC2::VPC"),
     ("Properties", Json.obj
       [("CidrBlock", cidr),
        ("EnableDnsHostnames", Json.bool true),
        ("EnableDnsSupport", Json.bool true),
        ("Tags", Json.arr
          [Json.obj [("Key", Json.str "Name"),
                     ("Value", Json.str ("Imported-" ++ vpcId))]])])]

/-- One iteration of the VPC loop: `vpc_id = vpc.get('VpcId', f'VPC{i}')`,
`resource_name = f"VPC{vpc_id.replace('-', '')}"`, then the descriptor. -/
def vpcEntry (i : Nat) (vpc : Json) : Except String (String × Json) := do
  let vpcIdJ ← vpc.pyGet "VpcId" (Json.str ("VPC" ++ toString i))
  let vpcId ← vpcIdJ.asStr
  let cidr ← vpc.pyGet "CidrBlock" (Json.str "10.0.0.0/16")
  pure ("VPC" ++ stripHyphens vpcId, mkVpcEntry cidr vpcId)

/-- The `enumerate` loop of `convert_vpc_to_cf`, accumulating the `resources`
dict. -/
def convVpcs : Nat → List Json → List (String × Json) → Except String (List (String × Json))
  | _, [], res => pure res
  | i, vpc :: rest, res => do
    let ke ← vpcEntry i vpc
    convVpcs (i + 1) rest (insertKV res ke.1 ke.2)

/-- `convert_vpc_to_cf` (lines 24–48): empty result when the `Vpcs` key is
absent, else convert each record in order. -/
def convert_vpc_to_cf (vpcs_data : Json) : Except String (List (String × Json)) :=
  match vpcs_data.lookup "Vpcs" with
  | some v => do
    let vpcs ← v.asArr
    convVpcs 0 vpcs []
  | none => pure []

/-- The inner loop of rule conversion (lines 72–75): one ingress entry per
element of `IpRanges`, all sharing the rule's protocol/port triple. -/
def rangeEntries (proto fromPort toPort : Json) : List Json → Except String (List Json)
  | [] => pure []
  | r :: rest => do
    let cidr ← r.pyGet "CidrIp" (Json.str "0.0.0.0/0")
    let es ← rangeEntries proto fromPort toPort rest
    pure (Json.obj [("IpProtocol", proto), ("FromPort", fromPort),
                    ("ToPort", toPort), ("CidrIp", cidr)] :: es)

/-- Flattening of one permission rule (lines 64–75): extract the
protocol/port triple with defaults, then one entry per attached range. -/
def ruleEntries (rule : Json) : Except String (List Json) := do
  let proto ← rule.pyGet "IpProtocol" (Json.str "tcp")
  let fromPort ← rule.pyGet "FromPort" (Json.num 80)
  let toPort ← rule.pyGet "ToPort" (Json.num 80)
  let rangesJ ← rule.pyGet "IpRanges" (Json.arr [])
  let ranges ← rangesJ.asArr
  rangeEntries proto fromPort toPort ranges

/-- The outer ingress loop: concatenate each rule's entries onto the
accumulated `ingress_rules` list. -/
def ingressLoop : List Json → List Json → Except String (List Json)
  | [], acc => pure acc
  | rule :: rest, acc => do
    let es ← ruleEntries rule
    ingressLoop rest (acc ++ es)

/-- The resource descriptor built for one non-default security group
(lines 77–89). -/
def mkSgEntry (descr : Json) (ingress : List Json) (tagName : String) : Json :=
  Json.obj
    [("Type", Json.str "AWS::EC2::SecurityGroup"),
     ("Properties", Json.obj
       [("GroupDescription", descr),
        ("SecurityGroupIngress", Json.arr ingress),
        ("Tags", Json.arr
          [Json.obj [("Key", Json.str "Name"),
                     ("Value", Json.str ("Imported-" ++ tagName))]])])]

/-- Conversion of one security-group record that passed the default-name
filter (lines 59–89). -/
def sgEntry (sg : Json) : Except String (String × Json) := do
  let sgIdJ ← sg.pyGet "GroupId" (Json.str "")
  let sgId ← sgIdJ.asStr
  let permsJ ← sg.pyGet "IpPermissions" (Json.arr [])
  let perms ← permsJ.asArr
  let ingress ← ingressLoop perms []
  let descr ← sg.pyGet "Description" (Json.str "Imported security group")
  let gname ← sg.pyGet "GroupName" (Json.str sgId)
  pure ("SecurityGroup" ++ stripHyphens sgId, mkSgEntry descr ingress gname.pyStr)

/-- One iteration of the security-group loop: skip the record when
`sg.get('GroupName') == 'default'` (lines 56–57), else convert and insert. -/
def processSG (res : List (String × Json)) (sg : Json) : Except String (List (String × Json)) := do
  let gn ← sg.pyGet "GroupName" Json.null
  if gn.isStrEq "default" then pure res
  else do
    let ke ← sgEntry sg
    pure (insertKV res ke.1 ke.2)

/-- The security-group loop over the record list. -/
def convSgs : List Json → List (String × Json) → Except String (List (String × Json))
  | [], res => pure res
  | sg :: rest, res => do
    let res2 ← processSG res sg
    convSgs rest res2

/-- `convert_security_groups_to_cf` (lines 50–91). -/
def convert_security_groups_to_cf (sg_data : Json) : Except String (List (String × Json)) :=
  match sg_data.lookup "SecurityGroups" with
  | some v => do
    let sgs ← v.asArr
    convSgs sgs []
  | none => pure []

/-- The resource descriptor built for one compute instance (lines 103–118). -/
def mkEc2Entry (image itype keyName : Json) (groupIds : List Json)
    (subnet : Json) (instanceId : String) : Json :=
  Json.obj
    [("Type", Json.str "AWS::EC2::Instance"),
     ("Properties", Json.obj
       [("ImageId", image),
        ("InstanceType", itype),
        ("KeyName", keyName),
        ("SecurityGroupIds", Json.arr groupIds),
        ("SubnetId", subnet),
        ("Tags", Json.arr
          [Json.obj [("Key", Json.str "Name"),
                     ("Value", Json.str ("Imported-" ++ instanceId))]])])]

/-- The list comprehension `[sg['GroupId'] for sg in instance.get('SecurityGroups', [])]`:
an unguarded subscript, the converters' only field access that can raise
on an absent key. -/
def groupIdsOf : List Json → Except String (List Json)
  | [] => pure []
  | sg :: rest => do
    let gid ← sg.pyIndex "GroupId"
    let rest2 ← groupIdsOf rest
    pure (gid :: rest2)

/-- Conversion of one instance record (lines 100–118). -/
def ec2Entry (inst : Json) : Except String (String × Json) := do
  let idJ ← inst.pyGet "InstanceId" (Json.str "")
  let instanceId ← idJ.asStr
  let image ← inst.pyGet "ImageId" (Json.str "ami-0abcdef1234567890")
  let itype ← inst.pyGet "InstanceType" (Json.str "t2.micro")
  let keyName ← inst.pyGet "KeyName" (Json.str "")
  let sgsJ ← inst.pyGet "SecurityGroups" (Json.arr [])
  let sgs ← sgsJ.asArr
  let groupIds ← groupIdsOf sgs
  let subnet ← inst.pyGet "SubnetId" (Json.str "")
  pure ("EC2Instance" ++ stripHyphens instanceId,
        mkEc2Entry image itype keyName groupIds subnet instanceId)

/-- The inner instance loop of `convert_ec2_to_cf`. -/
def convInstances : List Json → List (String × Json) → Except String (List (String × Json))
  | [], res => pure res
  | inst :: rest, res => do
    let ke ← ec2Entry inst
    convInstances rest (insertKV res ke.1 ke.2)

/-- The outer reservation loop of `convert_ec2_to_cf`. -/
def convReservations : List Json → List (String × Json) → Except String (List (String × Json))
  | [], res => pure res
  | resv :: rest, res => do
    let instsJ ← resv.pyGet "Instances" (Json.arr [])
    let insts ← instsJ.asArr
    let res2 ← convInstances insts res
    convReservations rest res2

/-- `convert_ec2_to_cf` (lines 93–120). -/
def convert_ec2_to_cf (ec2_data : Json) : Except String (List (String × Json)) :=
  match ec2_data.lookup "Reservations" with
  | some v => do
    let reservations ← v.asArr
    convReservations reservations []
  | none => pure []

/-- Abstraction of the file system seen by the loader: the file is absent,
present with unparsable content, or present with a parsed JSON value. -/
inductive FileState where
  | absent : FileState
  | invalid : FileState
  | content : Json → FileState

/-- The two diagnostic levels `load_json_file` can print. -/
inductive Diagnostic where
  | warningNotFound : Diagnostic
  | errorInvalidJson : Diagnostic

/-- `load_json_file` (lines 12–22): the parsed value, or an empty record set
plus a diagnostic (warning for a missing file, error for invalid JSON);
it never raises. -/
def load_json_file : FileState → Json × Option Diagnostic
  | .absent => (Json.obj [], some .warningNotFound)
  | .invalid => (Json.obj [], some .errorInvalidJson)
  | .content j => (j, none)

/-- The three input files `main` looks for in the export directory. -/
structure ExportDir where
  vpcsFile : FileState
  sgFile : FileState
  ec2File : FileState

/-- The template assembly of `main` (lines 134–154): load the three files,
convert each, merge by successive dict update, wrap with the fixed header. -/
def buildTemplate (d : ExportDir) : Except String Json := do
  let vpcs_data := (load_json_file d.vpcsFile).1
  let sg_data := (load_json_file d.sgFile).1
  let ec2_data := (load_json_file d.ec2File).1
  let r1 ← convert_vpc_to_cf vpcs_data
  let r2 ← convert_security_groups_to_cf sg_data
  let r3 ← convert_ec2_to_cf ec2_data
  let merged := (r1 ++ r2 ++ r3).foldl (fun acc kv => insertKV acc kv.1 kv.2) []
  pure (Json.obj
    [("AWSTemplateFormatVersion", Json.str "2010-09-09"),
     ("Description", Json.str "Imported AWS Infrastructure"),
     ("Resources", Json.obj merged)])

/-- `main` (lines 122–157): exit 1 on wrong argument count or nonexistent
directory (writing nothing); otherwise build and write the template and
exit 0. An uncaught conversion exception propagates as `Except.error`. -/
def main_run (argc : Nat) (dirExists : Bool) (d : ExportDir) :
    Except String (Nat × Option Json) :=
  if argc ≠ 2 then .ok (1, none)
  else if !dirExists then .ok (1, none)
  else (buildTemplate d).map (fun t => (0, some t))

/-- The default-name test of line 56 as a Boolean on one record:
`sg.get('GroupName') == 'default'` (false on non-dict records, where the
loop would instead raise before the comparison completes — such records are
kept by the filter and fail identically on both sides of the theorems
below). -/
def isDefaultSG (sg : Json) : Bool :=
  match sg with
  | .obj kvs => ((alistLookup kvs "GroupName").getD Json.null).isStrEq "default"
  | _ => false

/-- A well-formed network record: a mapping whose `VpcId` field is a string. -/
def wfVpc (vpc : Json) : Prop :=
  ∃ s, vpc.lookup "VpcId" = some (Json.str s)

/-- The identifier the converter derives for a well-formed network record. -/
def vpcDerivedKey (vpc : Json) : String :=
  match vpc.lookup "VpcId" with
  | some (Json.str s) => "VPC" ++ stripHyphens s
  | _ => ""

/-- Extract the value of the (single) name tag of a resource descriptor. -/
def nameTagValue (e : Json) : Option Json :=
  match e.lookup "Properties" with
  | some props =>
    match props.lookup "Tags" with
    | some (Json.arr (t :: _)) => t.lookup "Value"
    | _ => none
  | none => none

theorem except_bind_ok {α β : Type} (a : α) (f : α → Except String β) :
    (Except.ok a : Except String α) >>= f = f a := rfl

theorem except_bind_error {α β : Type} (e : String) (f : α → Except String β) :
    (Except.error e : Except String α) >>= f = Except.error e := rfl

theorem except_map_ok {α β : Type} (a : α) (f : α → β) :
    (Except.ok a : Except String α).map f = Except.ok (f a) := rfl

theorem except_pure_def {α : Type} (a : α) :
    (pure a : Except String α) = Except.ok a := rfl

attribute [simp] except_bind_ok except_bind_error except_map_ok except_pure_def

/-- C2: converting the record set `{"Vpcs": [{"CidrBlock": "192.168.0.0/16",
"VpcId": "vpc-abc123"}]}` yields exactly one entry keyed `"VPCvpcabc123"` of
type `AWS::EC2::VPC` with `CidrBlock "192.168.0.0/16"`, both DNS flags true,
and the single name tag `"Imported-vpc-abc123"`. -/
theorem spec_C2_vpc_round_trip :
    convert_vpc_to_cf (Json.obj [("Vpcs", Json.arr
      [Json.obj [("CidrBlock", Json.str "192.168.0.0/16"),
                 ("VpcId", Json.str "vpc-abc123")]])]) =
    .ok [("VPCvpcabc123", Json.obj
      [("Type", Json.str "AWS::EC2::VPC"),
       ("Properties", Json.obj
         [("CidrBlock", Json.str "192.168.0.0/16"),
          ("EnableDnsHostnames", Json.bool true),
          ("EnableDnsSupport", Json.bool true),
          ("Tags", Json.arr
            [Json.obj [("Key", Json.str "Name"),
                       ("Value", Json.str "Imported-vpc-abc123")]])])])] := rfl

/-- C4: a rule with protocol `tcp`, ports 22–22 and the two ranges
`10.0.0.0/8` and `0.0.0.0/0` flattens to exactly two ingress entries that
share the protocol/port triple and differ only in `CidrIp`, in range order. -/
theorem spec_C4_two_ranges_two_entries :
    convert_security_groups_to_cf (Json.obj [("SecurityGroups", Json.arr
      [Json.obj [("GroupId", Json.str "sg-1"),
                 ("IpPermissions", Json.arr
                   [Json.obj [("IpProtocol", Json.str "tcp"),
                              ("FromPort", Json.num 22),
                              ("ToPort", Json.num 22),
                              ("IpRanges", Json.arr
                                [Json.obj [("CidrIp", Json.str "10.0.0.0/8")],
                                 Json.obj [("CidrIp", Json.str "0.0.0.0/0")]])]])]])]) =
    .ok [("SecurityGroupsg1", mkSgEntry (Json.str "Imported security group")
      [Json.obj [("IpProtocol", Json.str "tcp"), ("FromPort", Json.num 22),
                 ("ToPort", Json.num 22), ("CidrIp", Json.str "10.0.0.0/8")],
       Json.obj [("IpProtocol", Json.str "tcp"), ("FromPort", Json.num 22),
                 ("ToPort", Json.num 22), ("CidrIp", Json.str "0.0.0.0/0")]]
      "sg-1")] := rfl

/-- C7: an absent input file makes the loader return an empty record set
with a warning (a diagnostic distinct from the invalid-JSON error), and a
run over a directory with all three files absent exits 0 with an empty
`Resources` mapping under the fixed header. -/
theorem spec_C7_absent_files_empty_template :
    load_json_file .absent = (Json.obj [], some Diagnostic.warningNotFound) ∧
    Diagnostic.warningNotFound ≠ Diagnostic.errorInvalidJson ∧
    main_run 2 true ⟨.absent, .absent, .absent⟩ =
      .ok (0, some (Json.obj
        [("AWSTemplateFormatVersion", Json.str "2010-09-09"),
         ("Description", Json.str "Imported AWS Infrastructure"),
         ("Resources", Json.obj [])])) :=
  ⟨rfl, fun h => Diagnostic.noConfusion h, rfl⟩

/-- C10: the compute converter indexes `sg['GroupId']` unguarded: an
instance whose `SecurityGroups` list has an element without `GroupId` makes
the conversion fail with an exception, while the same input with the field
present converts normally. -/
theorem spec_C10_groupid_access_unguarded :
    convert_ec2_to_cf (Json.obj [("Reservations", Json.arr
      [Json.obj [("Instances", Json.arr
        [Json.obj [("InstanceId", Json.str "i-1"),
                   ("SecurityGroups", Json.arr
                     [Json.obj [("GroupName", Json.str "web")]])]])]])]) =
      .error "KeyError" ∧
    convert_ec2_to_cf (Json.obj [("Reservations", Json.arr
      [Json.obj [("Instances", Json.arr
        [Json.obj [("InstanceId", Json.str "i-1"),
                   ("SecurityGroups", Json.arr
                     [Json.obj [("GroupName", Json.str "web"),
                                ("GroupId", Json.str "sg-9")]])]])]])]) =
      .ok [("EC2Instancei1",
            mkEc2Entry (Json.str "ami-0abcdef1234567890") (Json.str "t2.micro")
              (Json.str "") [Json.str "sg-9"] (Json.str "") "i-1")] :=
  ⟨rfl, rfl⟩

/-- C5 fails on the code: for the record set `{"Vpcs": [{}]}` (one record,
no `VpcId`) the produced key list is `["VPCVPC0"]` — the fallback native id
`"VPC0"` is prefixed with `"VPC"` again — so the key is not `"VPC0"` as the
claim states. -/
theorem spec_C5_counterexample_unnamed_record :
    (convert_vpc_to_cf (Json.obj [("Vpcs", Json.arr [Json.obj []])])).map
        (fun res => res.map Prod.fst) =
      .ok ["VPCVPC0"] ∧ "VPCVPC0" ≠ "VPC0" :=
  ⟨rfl, by decide⟩

theorem convSgs_filter_default (sgs : List Json) :
    ∀ res, convSgs sgs res = convSgs (sgs.filter (fun sg => !isDefaultSG sg)) res := by
  induction sgs with
  | nil => intro res; rfl
  | cons sg rest ih =>
    intro res
    cases hd : isDefaultSG sg with
    | true =>
      match sg, hd with
      | Json.obj kvs, hd =>
        have hd' : ((alistLookup kvs "GroupName").getD Json.null).isStrEq "default" = true := by
          simpa [isDefaultSG] using hd
        have hp : processSG res (Json.obj kvs) = pure res := by
          simp [processSG, Json.pyGet, hd']
        have hf : (Json.obj kvs :: rest).filter (fun sg => !isDefaultSG sg) =
            rest.filter (fun sg => !isDefaultSG sg) := by
          simp [List.filter, isDefaultSG, hd']
        rw [hf]
        show (processSG res (Json.obj kvs)) >>= (fun res2 => convSgs rest res2) = _
        rw [hp, except_pure_def, except_bind_ok]
        exact ih res
    | false =>
      have hf : (sg :: rest).filter (fun sg => !isDefaultSG sg) =
          sg :: rest.filter (fun sg => !isDefaultSG sg) := by
        simp [List.filter, hd]
      rw [hf]
      show (processSG res sg) >>= (fun res2 => convSgs rest res2) =
        (processSG res sg) >>= (fun res2 => convSgs (rest.filter (fun sg => !isDefaultSG sg)) res2)
      exact congrArg _ (funext fun res2 => ih res2)

/-- C1: a security-group record whose `GroupName` is exactly `"default"`
contributes nothing — the converter's output on any record set equals its
output on the same record set with all default-named records removed. -/
theorem spec_C1_default_groups_contribute_nothing (sg_data : Json) (sgs : List Json)
    (h : sg_data.lookup "SecurityGroups" = some (Json.arr sgs)) :
    convert_security_groups_to_cf sg_data =
      convert_security_groups_to_cf
        (Json.obj [("SecurityGroups", Json.arr (sgs.filter (fun sg => !isDefaultSG sg)))]) := by
  have e1 : convert_security_groups_to_cf sg_data = convSgs sgs [] := by
    unfold convert_security_groups_to_cf
    rw [h]
    rfl
  rw [e1]
  exact convSgs_filter_default sgs []

/-- Witness for C1: a record set holding one default-named group and one
ordinary group converts identically to the set with the default-named group
filtered out. -/
theorem spec_C1_witness :
    convert_security_groups_to_cf (Json.obj [("SecurityGroups", Json.arr
      [Json.obj [("GroupName", Json.str "default"), ("GroupId", Json.str "sg-0")],
       Json.obj [("GroupId", Json.str "sg-1")]])]) =
    convert_security_groups_to_cf (Json.obj [("SecurityGroups", Json.arr
      (([Json.obj [("GroupName", Json.str "default"), ("GroupId", Json.str "sg-0")],
         Json.obj [("GroupId", Json.str "sg-1")]] : List Json).filter
        (fun sg => !isDefaultSG sg)))]) :=
  spec_C1_default_groups_contribute_nothing _ _ rfl

/-- C3: a permission rule with an absent or empty `IpRanges` list flattens
to zero ingress entries — it is dropped, never defaulted to an open range. -/
theorem spec_C3_empty_ranges_zero_entries (kvs : List (String × Json))
    (h : alistLookup kvs "IpRanges" = none ∨
         alistLookup kvs "IpRanges" = some (Json.arr [])) :
    ruleEntries (Json.obj kvs) = .ok [] := by
  rcases h with h | h <;>
    simp [ruleEntries, Json.pyGet, h, Json.asArr, rangeEntries]

/-- Witness for C3: a rule carrying only a protocol and no `IpRanges`
yields the empty entry list. -/
theorem spec_C3_witness :
    ruleEntries (Json.obj [("IpProtocol", Json.str "tcp"),
                           ("FromPort", Json.num 22),
                           ("ToPort", Json.num 22)]) = .ok [] :=
  spec_C3_empty_ranges_zero_entries _ (Or.inl rfl)

/-- C8: the network converter neither reads nor propagates DNS-related
source fields — two records agreeing on every field other than
`EnableDnsHostnames`/`EnableDnsSupport` convert to the same entry, and every
successfully produced entry carries both DNS properties as `true`. -/
theorem spec_C8_dns_noninterference (i : Nat) (kvs1 kvs2 : List (String × Json))
    (hagree : ∀ k, k ≠ "EnableDnsHostnames" → k ≠ "EnableDnsSupport" →
      alistLookup kvs1 k = alistLookup kvs2 k) :
    vpcEntry i (Json.obj kvs1) = vpcEntry i (Json.obj kvs2) ∧
    ∀ k e props, vpcEntry i (Json.obj kvs1) = .ok (k, e) →
      e.lookup "Properties" = some props →
      props.lookup "EnableDnsHostnames" = some (Json.bool true) ∧
      props.lookup "EnableDnsSupport" = some (Json.bool true) := by
  have h1 : alistLookup kvs1 "VpcId" = alistLookup kvs2 "VpcId" :=
    hagree _ (by decide) (by decide)
  have h2 : alistLookup kvs1 "CidrBlock" = alistLookup kvs2 "CidrBlock" :=
    hagree _ (by decide) (by decide)
  constructor
  · simp only [vpcEntry, Json.pyGet, h1, h2]
  · intro k e props hok hprops
    cases hg : (alistLookup kvs1 "VpcId").getD (Json.str ("VPC" ++ toString i)) with
    | str s =>
      simp only [vpcEntry, Json.pyGet, hg, Json.asStr, except_bind_ok,
        except_pure_def, Except.ok.injEq, Prod.mk.injEq] at hok
      obtain ⟨-, he⟩ := hok
      subst he
      have hp2 : some (Json.obj
          [("CidrBlock", (alistLookup kvs1 "CidrBlock").getD (Json.str "10.0.0.0/16")),
           ("EnableDnsHostnames", Json.bool true),
           ("EnableDnsSupport", Json.bool true),
           ("Tags", Json.arr [Json.obj [("Key", Json.str "Name"),
                                        ("Value", Json.str ("Imported-" ++ s))]])]) =
          some props := hprops
      obtain rfl := Option.some.inj hp2
      constructor <;> rfl
    | null =>
      simp [vpcEntry, Json.pyGet, hg, Json.asStr] at hok
    | bool b =>
      simp [vpcEntry, Json.pyGet, hg, Json.asStr] at hok
    | num n =>
      simp [vpcEntry, Json.pyGet, hg, Json.asStr] at hok
    | arr xs =>
      simp [vpcEntry, Json.pyGet, hg, Json.asStr] at hok
    | obj kvs =>
      simp [vpcEntry, Json.pyGet, hg, Json.asStr] at hok

/-- Witness for C8: two concrete records that differ only in the value of
`EnableDnsHostnames` produce the same entry. -/
theorem spec_C8_witness :
    vpcEntry 0 (Json.obj [("VpcId", Json.str "vpc-1"), ("EnableDnsHostnames", Json.bool false)]) =
    vpcEntry 0 (Json.obj [("VpcId", Json.str "vpc-1"), ("EnableDnsHostnames", Json.bool true)]) :=
  (spec_C8_dns_noninterference 0 _ _ (by
    intro k hk1 _
    simp only [alistLookup]
    rw [if_neg (Ne.symm hk1), if_neg (Ne.symm hk1)])).1

theorem sgEntry_inv (kvs : List (String × Json)) (k : String) (e : Json)
    (hok : sgEntry (Json.obj kvs) = .ok (k, e)) :
    ∃ sid perms ingress,
      (alistLookup kvs "GroupId").getD (Json.str "") = Json.str sid ∧
      (alistLookup kvs "IpPermissions").getD (Json.arr []) = Json.arr perms ∧
      ingressLoop perms [] = .ok ingress ∧
      k = "SecurityGroup" ++ stripHyphens sid ∧
      e = mkSgEntry ((alistLookup kvs "Description").getD (Json.str "Imported security group"))
            ingress ((alistLookup kvs "GroupName").getD (Json.str sid)).pyStr := by
  cases hg1 : (alistLookup kvs "GroupId").getD (Json.str "") with
  | str sid =>
    cases hg2 : (alistLookup kvs "IpPermissions").getD (Json.arr []) with
    | arr perms =>
      cases hI : ingressLoop perms [] with
      | ok ingress =>
        refine ⟨sid, perms, ingress, rfl, rfl, hI, ?_, ?_⟩
        · simp only [sgEntry, Json.pyGet, hg1, hg2, hI, Json.asStr, Json.asArr,
            except_bind_ok, except_pure_def, Except.ok.injEq, Prod.mk.injEq] at hok
          exact hok.1.symm
        · simp only [sgEntry, Json.pyGet, hg1, hg2, hI, Json.asStr, Json.asArr,
            except_bind_ok, except_pure_def, Except.ok.injEq, Prod.mk.injEq] at hok
          exact hok.2.symm
      | error err => simp [sgEntry, Json.pyGet, hg1, hg2, hI, Json.asStr, Json.asArr] at hok
    | null => simp [sgEntry, Json.pyGet, hg1, hg2, Json.asStr, Json.asArr] at hok
    | bool b => simp [sgEntry, Json.pyGet, hg1, hg2, Json.asStr, Json.asArr] at hok
    | num n => simp [sgEntry, Json.pyGet, hg1, hg2, Json.asStr, Json.asArr] at hok
    | str s2 => simp [sgEntry, Json.pyGet, hg1, hg2, Json.asStr, Json.asArr] at hok
    | obj kvs2 => simp [sgEntry, Json.pyGet, hg1, hg2, Json.asStr, Json.asArr] at hok
  | null => simp [sgEntry, Json.pyGet, hg1, Json.asStr] at hok
  | bool b => simp [sgEntry, Json.pyGet, hg1, Json.asStr] at hok
  | num n => simp [sgEntry, Json.pyGet, hg1, Json.asStr] at hok
  | arr xs => simp [sgEntry, Json.pyGet, hg1, Json.asStr] at hok
  | obj kvs2 => simp [sgEntry, Json.pyGet, hg1, Json.asStr] at hok

/-- C9: for a converted (non-default) security-group record, the name tag's
value is `"Imported-"` followed by the record's `GroupName` when present,
and by its `GroupId` when the name is absent. -/
theorem spec_C9_name_tag (kvs : List (String × Json)) (nm gid k : String) (e : Json) :
    (alistLookup kvs "GroupName" = some (Json.str nm) → nm ≠ "default" →
      sgEntry (Json.obj kvs) = .ok (k, e) →
      nameTagValue e = some (Json.str ("Imported-" ++ nm))) ∧
    (alistLookup kvs "GroupName" = none →
      alistLookup kvs "GroupId" = some (Json.str gid) →
      sgEntry (Json.obj kvs) = .ok (k, e) →
      nameTagValue e = some (Json.str ("Imported-" ++ gid))) := by
  constructor
  · intro hnm _ hok
    obtain ⟨sid, perms, ingress, hg1, hg2, hI, hk, he⟩ := sgEntry_inv kvs k e hok
    subst he
    rw [hnm]
    rfl
  · intro hnone hgid hok
    obtain ⟨sid, perms, ingress, hg1, hg2, hI, hk, he⟩ := sgEntry_inv kvs k e hok
    subst he
    rw [hgid] at hg1
    simp only [Option.getD_some] at hg1
    injection hg1 with hgs
    subst hgs
    rw [hnone]
    rfl

/-- Witness for C9: a record whose `GroupName` is `"web"` gets the name tag
`"Imported-web"`. -/
theorem spec_C9_witness :
    nameTagValue (mkSgEntry (Json.str "Imported security group") [] "web") =
      some (Json.str "Imported-web") :=
  (spec_C9_name_tag [("GroupName", Json.str "web")] "web" "g" "SecurityGroup"
    (mkSgEntry (Json.str "Imported security group") [] "web")).1 rfl (by decide) rfl

theorem digitChar_ne_hyphen (n : Nat) : Nat.digitChar n ≠ '-' := by
  rcases Nat.lt_or_ge n 16 with h | h
  · interval_cases n <;> decide
  · have h0 : n ≠ 0 := by omega
    have h1 : n ≠ 1 := by omega
    have h2 : n ≠ 2 := by omega
    have h3 : n ≠ 3 := by omega
    have h4 : n ≠ 4 := by omega
    have h5 : n ≠ 5 := by omega
    have h6 : n ≠ 6 := by omega
    have h7 : n ≠ 7 := by omega
    have h8 : n ≠ 8 := by omega
    have h9 : n ≠ 9 := by omega
    have h10 : n ≠ 10 := by omega
    have h11 : n ≠ 11 := by omega
    have h12 : n ≠ 12 := by omega
    have h13 : n ≠ 13 := by omega
    have h14 : n ≠ 14 := by omega
    have h15 : n ≠ 15 := by omega
    unfold Nat.digitChar
    rw [if_neg h0, if_neg h1, if_neg h2, if_neg h3, if_neg h4, if_neg h5,
        if_neg h6, if_neg h7, if_neg h8, if_neg h9, if_neg h10, if_neg h11,
        if_neg h12, if_neg h13, if_neg h14, if_neg h15]
    decide

theorem toDigitsCore_ne_hyphen (fuel : Nat) :
    ∀ (n : Nat) (acc : List Char), (∀ c ∈ acc, c ≠ '-') →
      ∀ c ∈ Nat.toDigitsCore 10 fuel n acc, c ≠ '-' := by
  induction fuel with
  | zero => intro n acc hacc; simpa [Nat.toDigitsCore] using hacc
  | succ fuel ih =>
    intro n acc hacc
    have hd : ∀ c ∈ (Nat.digitChar (n % 10) :: acc), c ≠ '-' := by
      intro c hc
      rcases List.mem_cons.mp hc with rfl | hc
      · exact digitChar_ne_hyphen _
      · exact hacc c hc
    intro c hc
    simp only [Nat.toDigitsCore] at hc
    by_cases h0 : n / 10 = 0
    · simp only [h0, if_pos] at hc
      exact hd c hc
    · simp only [h0, if_neg, if_false] at hc
      exact ih _ _ hd c hc

theorem repr_no_hyphen (i : Nat) : ∀ c ∈ (toString i).data, c ≠ '-' := by
  intro c hc
  exact toDigitsCore_ne_hyphen (i + 1) i [] (by intro c h; cases h) c hc

theorem string_data_append (s t : String) : (s ++ t).data = s.data ++ t.data := by
  cases s
  cases t
  rfl

theorem string_append_assoc (a b c : String) : a ++ b ++ c = a ++ (b ++ c) := by
  cases a with
  | mk la =>
    cases b with
    | mk lb =>
      cases c with
      | mk lc => exact congrArg String.mk (List.append_assoc la lb lc)

theorem stripHyphens_fallback (i : Nat) :
    stripHyphens ("VPC" ++ toString i) = "VPC" ++ toString i := by
  have h1 : ("VPC" ++ toString i).data = "VPC".data ++ (toString i).data :=
    string_data_append _ _
  have h2 : (toString i).data.filter (fun c => decide (c ≠ '-')) = (toString i).data := by
    apply List.filter_eq_self.mpr
    intro a ha
    exact decide_eq_true (repr_no_hyphen i a ha)
  have h3 : "VPC".data.filter (fun c => decide (c ≠ '-')) = "VPC".data := by decide
  unfold stripHyphens
  rw [h1, List.filter_append, h2, h3]
  exact (congrArg String.mk h1).symm

/-- C5 amended: for a record with a string `VpcId`, the derived key is
`"VPC"` followed by the hyphen-stripped identifier; for a record at index
`i` with no `VpcId`, the fallback native id is itself `"VPC" + i`, so the
derived key is `"VPC"` applied to it again, i.e. `"VPCVPC" + i` — not
`"VPC" + i`. -/
theorem spec_C5_amended_key_derivation (i : Nat) (kvs : List (String × Json)) :
    (alistLookup kvs "VpcId" = none →
      (vpcEntry i (Json.obj kvs)).map Prod.fst = .ok ("VPCVPC" ++ toString i)) ∧
    (∀ s, alistLookup kvs "VpcId" = some (Json.str s) →
      (vpcEntry i (Json.obj kvs)).map Prod.fst = .ok ("VPC" ++ stripHyphens s)) := by
  constructor
  · intro h
    have e1 : (vpcEntry i (Json.obj kvs)).map Prod.fst =
        .ok ("VPC" ++ stripHyphens ("VPC" ++ toString i)) := by
      simp [vpcEntry, Json.pyGet, h, Json.asStr]
    rw [e1, stripHyphens_fallback, ← string_append_assoc]
    rfl
  · intro s hs
    simp [vpcEntry, Json.pyGet, hs, Json.asStr]

/-- Witness for the amended C5: the eighth record (index 7) with no native
identifier receives the key `"VPCVPC7"`. -/
theorem spec_C5_amended_witness :
    (vpcEntry 7 (Json.obj [("CidrBlock", Json.str "10.1.0.0/16")])).map Prod.fst =
      .ok ("VPCVPC" ++ toString 7) :=
  (spec_C5_amended_key_derivation 7 [("CidrBlock", Json.str "10.1.0.0/16")]).1 rfl

theorem alistLookup_eq_none (kvs : List (String × Json)) (k : String) :
    alistLookup kvs k = none ↔ k ∉ kvs.map Prod.fst := by
  induction kvs with
  | nil => simp [alistLookup]
  | cons kv rest ih =>
    cases kv with
    | mk k2 v =>
      by_cases hk : k2 = k
      · subst hk
        simp [alistLookup]
      · have hk2 : ¬(k = k2) := fun h => hk h.symm
        simp [alistLookup, hk, hk2, ih]

theorem insertKV_fresh (res : List (String × Json)) (k : String) (v : Json)
    (h : alistLookup res k = none) : insertKV res k v = res ++ [(k, v)] := by
  simp [insertKV, h]

theorem vpcEntry_of_wf (i : Nat) (vpc : Json) (s : String)
    (h : vpc.lookup "VpcId" = some (Json.str s)) :
    vpcEntry i vpc = .ok (vpcDerivedKey vpc,
      mkVpcEntry ((vpc.lookup "CidrBlock").getD (Json.str "10.0.0.0/16")) s) := by
  cases vpc with
  | obj kvs =>
    have h2 : alistLookup kvs "VpcId" = some (Json.str s) := h
    have hk : vpcDerivedKey (Json.obj kvs) = "VPC" ++ stripHyphens s := by
      simp [vpcDerivedKey, Json.lookup, h2]
    rw [hk]
    simp [vpcEntry, Json.pyGet, h2, Json.asStr, Json.lookup]
  | null => simp [Json.lookup] at h
  | bool b => simp [Json.lookup] at h
  | num n2 => simp [Json.lookup] at h
  | str s2 => simp [Json.lookup] at h
  | arr l => simp [Json.lookup] at h

theorem convVpcs_wf (l : List Json) :
    ∀ (i : Nat) (acc : List (String × Json)),
      (∀ v ∈ l, wfVpc v) →
      (acc.map Prod.fst ++ l.map vpcDerivedKey).Nodup →
      ∃ res, convVpcs i l acc = .ok res ∧
        res.map Prod.fst = acc.map Prod.fst ++ l.map vpcDerivedKey := by
  induction l with
  | nil =>
    intro i acc _ _
    exact ⟨acc, rfl, by simp⟩
  | cons vpc rest ih =>
    intro i acc hwf hnd
    obtain ⟨s, hs⟩ := hwf vpc (List.mem_cons_self _ _)
    have hentry := vpcEntry_of_wf i vpc s hs
    have hnotin : vpcDerivedKey vpc ∉ acc.map Prod.fst := by
      intro hmem
      have hnd2 := hnd
      rw [List.map_cons, List.nodup_append] at hnd2
      exact hnd2.2.2 hmem (List.mem_cons_self _ _)
    have hfresh : alistLookup acc (vpcDerivedKey vpc) = none :=
      (alistLookup_eq_none _ _).mpr hnotin
    have hstep : convVpcs i (vpc :: rest) acc =
        convVpcs (i + 1) rest (acc ++ [(vpcDerivedKey vpc,
          mkVpcEntry ((vpc.lookup "CidrBlock").getD (Json.str "10.0.0.0/16")) s)]) := by
      show (vpcEntry i vpc) >>= (fun ke => convVpcs (i + 1) rest (insertKV acc ke.1 ke.2)) = _
      rw [hentry, except_bind_ok, insertKV_fresh _ _ _ hfresh]
    obtain ⟨res, hres, hkeys⟩ := ih (i + 1)
      (acc ++ [(vpcDerivedKey vpc,
        mkVpcEntry ((vpc.lookup "CidrBlock").getD (Json.str "10.0.0.0/16")) s)])
      (fun v hv => hwf v (List.mem_cons_of_mem _ hv))
      (by simpa [List.map_append, List.append_assoc] using hnd)
    refine ⟨res, hstep.trans hres, ?_⟩
    rw [hkeys]
    simp [List.map_append, List.map_cons, List.append_assoc]

/-- C6: on a record set whose network records each carry a string `VpcId`
and whose derived identifiers are pairwise distinct, the converter succeeds,
produces exactly one entry per input record, and keys each entry by `"VPC"`
plus the hyphen-stripped native identifier. -/
theorem spec_C6_wellformed_entry_count (data : Json) (vpcs : List Json)
    (h : data.lookup "Vpcs" = some (Json.arr vpcs))
    (hwf : ∀ v ∈ vpcs, wfVpc v)
    (hnd : (vpcs.map vpcDerivedKey).Nodup) :
    ∃ res, convert_vpc_to_cf data = .ok res ∧
      res.length = vpcs.length ∧
      res.map Prod.fst = vpcs.map vpcDerivedKey := by
  have e1 : convert_vpc_to_cf data = convVpcs 0 vpcs [] := by
    unfold convert_vpc_to_cf
    rw [h]
    rfl
  obtain ⟨res, hres, hkeys⟩ := convVpcs_wf vpcs 0 [] hwf (by simpa using hnd)
  refine ⟨res, e1.trans hres, ?_, by simpa using hkeys⟩
  have hlen : (res.map Prod.fst).length = (vpcs.map vpcDerivedKey).length := by
    rw [hkeys]
    simp
  simpa using hlen

/-- Witness for C6: two well-formed records with distinct identifiers
produce exactly two entries with the derived keys, in order. -/
theorem spec_C6_witness : ∃ res,
    convert_vpc_to_cf (Json.obj [("Vpcs", Json.arr
      [Json.obj [("VpcId", Json.str "vpc-a")],
       Json.obj [("VpcId", Json.str "vpc-b")]])]) = .ok res ∧
    res.length = 2 ∧
    res.map Prod.fst = ["VPCvpca", "VPCvpcb"] := by
  have h := spec_C6_wellformed_entry_count
    (Json.obj [("Vpcs", Json.arr
      [Json.obj [("VpcId", Json.str "vpc-a")],
       Json.obj [("VpcId", Json.str "vpc-b")]])])
    [Json.obj [("VpcId", Json.str "vpc-a")], Json.obj [("VpcId", Json.str "vpc-b")]]
    rfl
    (by
      intro v hv
      cases hv with
      | head => exact ⟨"vpc-a", rfl⟩
      | tail _ hv2 =>
        cases hv2 with
        | head => exact ⟨"vpc-b", rfl⟩
        | tail _ hv3 => cases hv3)
    (by decide)
  exact h
